import Mathlib

/-!
A shallow embedding of the node-graph execution runtime excerpt:
the built-in scalar-math function library
(`source/blender/functions/functions/scalar_math.cpp`) and the
stack-based bytecode evaluator interface
(`source/blender/blenvm/bvm/bvm_eval.h`).

C++ `float` values are modelled as exact rationals (`ℚ`); all the
arithmetic in the excerpt is plain `+ - * /` with an explicit guard on
the only division, so the exact model mirrors the source expressions
one-for-one.
-/

namespace FN

/-- Error taxonomy of the runtime (spec §7): wrong type on Tuple access,
addressing beyond bounds, no call body for the requested strategy, and
Signature construction conflicts. -/
inductive FnError where
  | TypeMismatch
  | OutOfRange
  | StackOverflow
  | UnresolvedBody
  | DuplicateParameter
deriving DecidableEq, Repr

/-- `float3` from `bvm_eval.h`: a triple of floats. -/
structure float3 where
  x : ℚ
  y : ℚ
  z : ℚ
deriving DecidableEq, Repr

/-- `float3(a, b, c)` constructor. -/
def float3.mk3 (a b c : ℚ) : float3 := ⟨a, b, c⟩

/-- `EffectorEvalData` from `bvm_eval.h`: context object plus point
position/velocity.  The `PointerRNA object` reference is modelled as an
optional opaque object id. -/
structure EffectorEvalData where
  object : Option ℕ
  position : float3
  velocity : float3
deriving DecidableEq, Repr

/-- Default `EffectorEvalData()` constructor: position and velocity zero. -/
def EffectorEvalData.init : EffectorEvalData :=
  { object := none
    position := float3.mk3 0 0 0
    velocity := float3.mk3 0 0 0 }

/-- `TextureEvalData` from `bvm_eval.h`. -/
structure TextureEvalData where
  co : float3
  dxt : float3
  dyt : float3
  cfra : ℤ
  osatex : ℤ
deriving DecidableEq, Repr

/-- Default `TextureEvalData()` constructor. -/
def TextureEvalData.init : TextureEvalData :=
  { co := float3.mk3 0 0 0
    dxt := float3.mk3 0 0 0
    dyt := float3.mk3 0 0 0
    cfra := 0
    osatex := 0 }

/-- `ModifierEvalData` from `bvm_eval.h`: base mesh reference. -/
structure ModifierEvalData where
  base_mesh : Option ℕ
deriving DecidableEq, Repr

/-- Default `ModifierEvalData()` constructor: `base_mesh = NULL`. -/
def ModifierEvalData.init : ModifierEvalData := { base_mesh := none }

/-- `EvalData` from `bvm_eval.h`: per-site context bundle. -/
structure EvalData where
  effector : EffectorEvalData
  texture : TextureEvalData
  modifier : ModifierEvalData
  iteration : ℤ
deriving DecidableEq, Repr

/-- Default `EvalData()` constructor: `iteration = 0`. -/
def EvalData.init : EvalData :=
  { effector := EffectorEvalData.init
    texture := TextureEvalData.init
    modifier := ModifierEvalData.init
    iteration := 0 }

/-- `EvalGlobals` from `bvm_eval.h`: an ordered list of externally owned
object references, modelled as opaque object ids. -/
structure EvalGlobals where
  objects : List ℕ
deriving DecidableEq, Repr

/-- The execution context handed to every interpreted call body: read
access to the globals registry and the per-site `EvalData`. -/
structure ExecutionContext where
  globals : EvalGlobals
  data : EvalData
deriving DecidableEq, Repr

/-- A default execution context built from the default constructors. -/
def ExecutionContext.init : ExecutionContext :=
  { globals := { objects := [] }, data := EvalData.init }

/-- Typed values held in Tuple slots.  The excerpt's built-ins only use
floats, but the catalog also describes vectors and integers. -/
inductive Value where
  | float (v : ℚ)
  | vector (v : float3)
  | int (n : ℤ)
deriving DecidableEq, Repr

/-- Type descriptors for value shapes. -/
inductive TypeDesc where
  | floatTy
  | vectorTy
  | intTy
deriving DecidableEq, Repr

/-- `get_float_type()` from the FN type catalog. -/
def get_float_type : TypeDesc := TypeDesc.floatTy

/-- A Tuple: a fixed-layout typed value container; slot `i` holds the
value bound to parameter `i`. -/
def Tuple := List Value

/-- `Tuple::get<float>(i)`: typed slot read; fails with `TypeMismatch`
when the slot holds a non-float, with `OutOfRange` when `i` is beyond
the slot count. -/
def Tuple.get_float (t : Tuple) (i : ℕ) : Except FnError ℚ :=
  match List.get? t i with
  | some (Value.float v) => Except.ok v
  | some _ => Except.error FnError.TypeMismatch
  | none => Except.error FnError.OutOfRange

/-- The observable effect of one interpreted call: the ordered log of
`fn_out.set` writes (slot index, value written) and the execution
context as it stands after the call (the C++ body receives the context
by reference and could mutate it; the log records what it did). -/
structure CallResult where
  writes : List (ℕ × Value)
  ctxAfter : ExecutionContext
deriving DecidableEq, Repr

/-- Blender's `CLAMP(a, b, c)` macro:
`if (a < b) a = b; else if (a > c) a = c;`. -/
def CLAMP (a b c : ℚ) : ℚ :=
  if a < b then b else if a > c then c else a

/-- `AddFloats::call` from `scalar_math.cpp`:
reads floats from input slots 0 and 1, writes `a + b` to output slot 0,
ignores the execution context. -/
def AddFloats.call (fn_in : Tuple) (ctx : ExecutionContext) :
    Except FnError CallResult := do
  let a ← fn_in.get_float 0
  let b ← fn_in.get_float 1
  return { writes := [(0, Value.float (a + b))], ctxAfter := ctx }

/-- `MultiplyFloats::call` from `scalar_math.cpp`: writes `a * b`. -/
def MultiplyFloats.call (fn_in : Tuple) (ctx : ExecutionContext) :
    Except FnError CallResult := do
  let a ← fn_in.get_float 0
  let b ← fn_in.get_float 1
  return { writes := [(0, Value.float (a * b))], ctxAfter := ctx }

/-- `MinFloats::call` from `scalar_math.cpp`: writes `(a < b) ? a : b`. -/
def MinFloats.call (fn_in : Tuple) (ctx : ExecutionContext) :
    Except FnError CallResult := do
  let a ← fn_in.get_float 0
  let b ← fn_in.get_float 1
  return { writes := [(0, Value.float (if a < b then a else b))], ctxAfter := ctx }

/-- `MaxFloats::call` from `scalar_math.cpp`: writes `(a < b) ? b : a`. -/
def MaxFloats.call (fn_in : Tuple) (ctx : ExecutionContext) :
    Except FnError CallResult := do
  let a ← fn_in.get_float 0
  let b ← fn_in.get_float 1
  return { writes := [(0, Value.float (if a < b then b else a))], ctxAfter := ctx }

/-- `MapRange::call` from `scalar_math.cpp`: reads
`value, from_min, from_max, to_min, to_max` from input slots 0..4;
if `from_range == 0` the result is `to_min`, otherwise
`t = CLAMP((value - from_min) / from_range, 0, 1)` and the result is
`t * to_range + to_min`; writes the result to output slot 0. -/
def MapRange.call (fn_in : Tuple) (ctx : ExecutionContext) :
    Except FnError CallResult := do
  let value ← fn_in.get_float 0
  let from_min ← fn_in.get_float 1
  let from_max ← fn_in.get_float 2
  let to_min ← fn_in.get_float 3
  let to_max ← fn_in.get_float 4
  let from_range := from_max - from_min
  let to_range := to_max - to_min
  let result :=
    if from_range = 0 then
      to_min
    else
      let t := CLAMP ((value - from_min) / from_range) 0 1
      t * to_range + to_min
  return { writes := [(0, Value.float result)], ctxAfter := ctx }

/-- LLVM SSA values produced by a codegen body, modelled by their
(exact) numeric meaning, in production order. -/
def LLVMValues := List ℚ

/-- `builder.CreateFAdd`: floating-point addition of two SSA values. -/
def IRBuilder.CreateFAdd (a b : ℚ) : ℚ := a + b

/-- `GenAddFloats::build_ir` from `scalar_math.cpp`: appends
`CreateFAdd(inputs[0], inputs[1])` to `r_outputs`.  The codegen contract
guarantees one materialized value per input slot, so `inputs` has (at
least) two entries; out-of-contract indexing is modelled by `getD`. -/
def GenAddFloats.build_ir (inputs : LLVMValues) (r_outputs : LLVMValues) :
    LLVMValues :=
  List.append r_outputs
    [IRBuilder.CreateFAdd (List.getD inputs 0 0) (List.getD inputs 1 0)]

/-- `InputParameter(name, type)` from the FN signature system. -/
structure InputParameter where
  name : String
  type : TypeDesc
deriving DecidableEq, Repr

/-- `OutputParameter(name, type)` from the FN signature system. -/
structure OutputParameter where
  name : String
  type : TypeDesc
deriving DecidableEq, Repr

/-- `Signature`: ordered input parameters plus ordered output
parameters, fixed once constructed. -/
structure Signature where
  inputs : List InputParameter
  outputs : List OutputParameter
deriving DecidableEq, Repr

/-- Modelled from the spec: `Signature::construct(inputs, outputs)` is
not in the excerpt (only `Signature({...}, {...})` uses are); per the
spec it "validates per-direction name uniqueness; fails with
`DuplicateParameter` otherwise" — input names must be pairwise distinct
among inputs, output names among outputs, with no cross-direction
restriction. -/
def Signature.construct (ins : List InputParameter) (outs : List OutputParameter) :
    Except FnError Signature :=
  if (ins.map InputParameter.name).Nodup then
    if (outs.map OutputParameter.name).Nodup then
      Except.ok { inputs := ins, outputs := outs }
    else
      Except.error FnError.DuplicateParameter
  else
    Except.error FnError.DuplicateParameter

/-- Tags for the interpreted (`TupleCallBody`) implementations defined
in `scalar_math.cpp`. -/
inductive TupleBody where
  | addFloats
  | multiplyFloats
  | minFloats
  | maxFloats
  | mapRange
deriving DecidableEq, Repr

/-- Dispatch an interpreted body tag to its `call` implementation. -/
def TupleBody.run (b : TupleBody) (fn_in : Tuple) (ctx : ExecutionContext) :
    Except FnError CallResult :=
  match b with
  | .addFloats => AddFloats.call fn_in ctx
  | .multiplyFloats => MultiplyFloats.call fn_in ctx
  | .minFloats => MinFloats.call fn_in ctx
  | .maxFloats => MaxFloats.call fn_in ctx
  | .mapRange => MapRange.call fn_in ctx

/-- Tags for the codegen (`LLVMBuildIRBody`) implementations defined in
`scalar_math.cpp` — only `GenAddFloats` exists. -/
inductive LLVMBody where
  | genAddFloats
deriving DecidableEq, Repr

/-- Dispatch a codegen body tag to its `build_ir` implementation. -/
def LLVMBody.run (b : LLVMBody) (inputs : LLVMValues) (r_outputs : LLVMValues) :
    LLVMValues :=
  match b with
  | .genAddFloats => GenAddFloats.build_ir inputs r_outputs

/-- A `Function`: name, immutable Signature, and the set of attached
call bodies keyed by strategy (at most one per strategy in this
excerpt). -/
structure Function where
  name : String
  sig : Signature
  tupleCallBody : Option TupleBody
  llvmBody : Option LLVMBody
deriving DecidableEq, Repr

/-- `fn->add_body(new <TupleCallBody>())`: attach an interpreted body. -/
def Function.add_body_tuple (fn : Function) (b : TupleBody) : Function :=
  { fn with tupleCallBody := some b }

/-- `fn->add_body(new <LLVMBuildIRBody>())`: attach a codegen body. -/
def Function.add_body_llvm (fn : Function) (b : LLVMBody) : Function :=
  { fn with llvmBody := some b }

/-- Modelled from the spec: the evaluator entry that runs a Function
under the interpreted strategy is not in the excerpt; per the spec, "a
Function must have at least one usable body before being evaluated
under that strategy, else evaluation fails with `UnresolvedBody`". -/
def Function.eval_interpreted (fn : Function) (fn_in : Tuple)
    (ctx : ExecutionContext) : Except FnError CallResult :=
  match fn.tupleCallBody with
  | some b => TupleBody.run b fn_in ctx
  | none => Except.error FnError.UnresolvedBody

/-- Modelled from the spec: evaluating a Function under the codegen
strategy likewise fails with `UnresolvedBody` when no codegen body is
attached. -/
def Function.eval_codegen (fn : Function) (inputs : LLVMValues) :
    Except FnError LLVMValues :=
  match fn.llvmBody with
  | some b => Except.ok (LLVMBody.run b inputs [])
  | none => Except.error FnError.UnresolvedBody

/-- `get_simple_math_function(name)` from `scalar_math.cpp`: a Function
with float inputs "A", "B" and float output "Result", no bodies yet. -/
def get_simple_math_function (name : String) : Function :=
  { name := name
    sig :=
      { inputs :=
          [ { name := "A", type := get_float_type }
            , { name := "B", type := get_float_type } ]
        outputs := [ { name := "Result", type := get_float_type } ] }
    tupleCallBody := none
    llvmBody := none }

/-- The Function value built by the `add_floats` initializer body:
`get_simple_math_function("Add Floats")` with only `GenAddFloats`
attached — the `fn->add_body(new AddFloats())` line is commented out in
the source. -/
def add_floats_build : Function :=
  Function.add_body_llvm (get_simple_math_function "Add Floats") LLVMBody.genAddFloats

/-- The Function value built by the `multiply_floats` initializer body. -/
def multiply_floats_build : Function :=
  Function.add_body_tuple (get_simple_math_function "Multiply Floats") TupleBody.multiplyFloats

/-- The Function value built by the `min_floats` initializer body. -/
def min_floats_build : Function :=
  Function.add_body_tuple (get_simple_math_function "Minimum") TupleBody.minFloats

/-- The Function value built by the `max_floats` initializer body. -/
def max_floats_build : Function :=
  Function.add_body_tuple (get_simple_math_function "Maximum") TupleBody.maxFloats

/-- The Function value built by the `map_range` initializer body: five
float inputs, one float output named "Value" like input 0, with the
`MapRange` interpreted body attached. -/
def map_range_build : Function :=
  Function.add_body_tuple
    { name := "Map Range"
      sig :=
        { inputs :=
            [ { name := "Value", type := get_float_type }
              , { name := "From Min", type := get_float_type }
              , { name := "From Max", type := get_float_type }
              , { name := "To Min", type := get_float_type }
              , { name := "To Max", type := get_float_type } ]
          outputs := [ { name := "Value", type := get_float_type } ] }
      tupleCallBody := none
      llvmBody := none }
    TupleBody.mapRange

/-- Modelled from the spec: the `LAZY_INIT_REF__NO_ARG` machinery
(`BLI_lazy_init.hpp`) is not in the excerpt; per the spec each built-in
is "constructed exactly once (guarded against duplicate concurrent
construction) and shared thereafter by reference".  The cache state of
one lazily initialized accessor, together with a count of how many
times its initializer body has run. -/
structure LazyState where
  cache : Option Function
  constructions : ℕ
deriving DecidableEq, Repr

/-- A fresh accessor state: nothing constructed yet. -/
def LazyState.fresh : LazyState := { cache := none, constructions := 0 }

/-- Modelled from the spec: one accessor call — on the first call the
initializer body runs once and its result is cached; every later call
returns the cached Function unchanged. -/
def LazyState.access (build : Function) (s : LazyState) :
    Function × LazyState :=
  match s.cache with
  | some fn => (fn, s)
  | none => (build, { cache := some build, constructions := s.constructions + 1 })

/-- The `add_floats()` accessor acting on its cache state. -/
def add_floats (s : LazyState) : Function × LazyState :=
  LazyState.access add_floats_build s

/-- The `multiply_floats()` accessor acting on its cache state. -/
def multiply_floats (s : LazyState) : Function × LazyState :=
  LazyState.access multiply_floats_build s

/-- The `min_floats()` accessor acting on its cache state. -/
def min_floats (s : LazyState) : Function × LazyState :=
  LazyState.access min_floats_build s

/-- The `max_floats()` accessor acting on its cache state. -/
def max_floats (s : LazyState) : Function × LazyState :=
  LazyState.access max_floats_build s

/-- The `map_range()` accessor acting on its cache state. -/
def map_range (s : LazyState) : Function × LazyState :=
  LazyState.access map_range_build s

end FN

namespace bvm

/-- `BVM_STACK_SIZE` from `bvm_eval.h`: the fixed capacity of the
evaluator stack, in numeric slots (the stack is a `float *`, so each
slot is one four-byte float). -/
def BVM_STACK_SIZE : ℕ := 4095

/-- One stack access performed while executing an instruction: a read
of a slot, or a write of a value to a slot. -/
inductive StackOp where
  | load (slot : ℕ)
  | store (slot : ℕ) (v : ℚ)
deriving DecidableEq, Repr

/-- Modelled from the spec: the body of
`EvalContext::eval_instructions` is not in the excerpt (only its
declaration in `bvm_eval.h`); per the spec "any instruction that would
read or write outside `[0, 4095)` ... must fail fast (hard stop /
assertion), never silently clamp or wrap".  One stack access: in-bounds
slots succeed, out-of-bounds slots fail hard with `StackOverflow`. -/
def step (stack : List ℚ) : StackOp → Except FN.FnError (List ℚ)
  | .load i =>
      if i < BVM_STACK_SIZE then Except.ok stack
      else Except.error FN.FnError.StackOverflow
  | .store i v =>
      if i < BVM_STACK_SIZE then Except.ok (stack.set i v)
      else Except.error FN.FnError.StackOverflow

/-- Modelled from the spec: `EvalContext::eval_expression` walks the
instruction stream from the entry point, performing each instruction's
fixed-offset stack accesses in order; the first hard failure aborts the
whole evaluation immediately. -/
def eval_expression (stack : List ℚ) : List StackOp → Except FN.FnError (List ℚ)
  | [] => Except.ok stack
  | op :: rest => do eval_expression (← step stack op) rest

end bvm

namespace FN

/-- Evaluation of `MapRange::call` on a tuple of five floats: the call
always succeeds and writes the source's branch expression to slot 0. -/
theorem MapRange.call_floats (v a b c d : ℚ) (ctx : ExecutionContext) :
    MapRange.call
        [Value.float v, Value.float a, Value.float b, Value.float c, Value.float d] ctx
      = Except.ok
          { writes :=
              [(0, Value.float
                (if b - a = 0 then c
                 else CLAMP ((v - a) / (b - a)) 0 1 * (d - c) + c))]
            ctxAfter := ctx } := rfl

/-- `CLAMP x 0 1` stays within `[0, 1]`. -/
theorem CLAMP_unit_bounds (x : ℚ) : 0 ≤ CLAMP x 0 1 ∧ CLAMP x 0 1 ≤ 1 := by
  unfold CLAMP
  split_ifs with h1 h2 <;> constructor <;> linarith

/-- C1: on a non-degenerate source range (`from_max ≠ from_min`),
`MapRange::call` writes `to_min + t * (to_max - to_min)` with
`t = clamp((value - from_min) / (from_max - from_min), 0, 1)` to its
output slot; in particular `map_range(5,0,10,0,1) = 1/2`,
`map_range(-5,0,10,0,1) = 0`, and `map_range(15,0,10,0,1) = 1`. -/
theorem mapRange_nondegenerate (v a b c d : ℚ) (ctx : ExecutionContext)
    (h : b ≠ a) :
    MapRange.call
        [Value.float v, Value.float a, Value.float b, Value.float c, Value.float d] ctx
      = Except.ok
          { writes :=
              [(0, Value.float (c + CLAMP ((v - a) / (b - a)) 0 1 * (d - c)))]
            ctxAfter := ctx } ∧
    MapRange.call
        [Value.float 5, Value.float 0, Value.float 10, Value.float 0, Value.float 1]
        ExecutionContext.init
      = Except.ok
          { writes := [(0, Value.float (1/2))], ctxAfter := ExecutionContext.init } ∧
    MapRange.call
        [Value.float (-5), Value.float 0, Value.float 10, Value.float 0, Value.float 1]
        ExecutionContext.init
      = Except.ok
          { writes := [(0, Value.float 0)], ctxAfter := ExecutionContext.init } ∧
    MapRange.call
        [Value.float 15, Value.float 0, Value.float 10, Value.float 0, Value.float 1]
        ExecutionContext.init
      = Except.ok
          { writes := [(0, Value.float 1)], ctxAfter := ExecutionContext.init } := by
  refine ⟨?_, ?_, ?_, ?_⟩
  · rw [MapRange.call_floats, if_neg (sub_ne_zero.mpr h)]
    have hcomm :
        CLAMP ((v - a) / (b - a)) 0 1 * (d - c) + c
          = c + CLAMP ((v - a) / (b - a)) 0 1 * (d - c) := by ring
    rw [hcomm]
  · rw [MapRange.call_floats]
    norm_num [CLAMP]
  · rw [MapRange.call_floats]
    norm_num [CLAMP]
  · rw [MapRange.call_floats]
    norm_num [CLAMP]

/-- Witness for C1 at `(value, from, to) = (5, [0,10], [0,1])`. -/
theorem mapRange_nondegenerate_witness :
    (10 : ℚ) ≠ 0 ∧
    (MapRange.call
        [Value.float 5, Value.float 0, Value.float 10, Value.float 0, Value.float 1]
        ExecutionContext.init
      = Except.ok
          { writes :=
              [(0, Value.float (0 + CLAMP ((5 - 0) / (10 - 0)) 0 1 * (1 - 0)))]
            ctxAfter := ExecutionContext.init } ∧
    MapRange.call
        [Value.float 5, Value.float 0, Value.float 10, Value.float 0, Value.float 1]
        ExecutionContext.init
      = Except.ok
          { writes := [(0, Value.float (1/2))], ctxAfter := ExecutionContext.init } ∧
    MapRange.call
        [Value.float (-5), Value.float 0, Value.float 10, Value.float 0, Value.float 1]
        ExecutionContext.init
      = Except.ok
          { writes := [(0, Value.float 0)], ctxAfter := ExecutionContext.init } ∧
    MapRange.call
        [Value.float 15, Value.float 0, Value.float 10, Value.float 0, Value.float 1]
        ExecutionContext.init
      = Except.ok
          { writes := [(0, Value.float 1)], ctxAfter := ExecutionContext.init }) :=
  ⟨by norm_num,
   mapRange_nondegenerate 5 0 10 0 1 ExecutionContext.init (by norm_num)⟩

/-- C2: on a degenerate source range (`from_min = from_max = c`),
`MapRange::call` takes the guarded branch (no division is evaluated)
and writes `to_min = a` to its output slot, for every value `x`. -/
theorem mapRange_degenerate (x c a b : ℚ) (ctx : ExecutionContext) :
    MapRange.call
        [Value.float x, Value.float c, Value.float c, Value.float a, Value.float b] ctx
      = Except.ok { writes := [(0, Value.float a)], ctxAfter := ctx } := by
  rw [MapRange.call_floats, if_pos (sub_self c)]

/-- C3 counterexample: with destination parameters `to_min = 1`,
`to_max = 0` (a reversed destination range), the result of
`map_range(5, 0, 10, 1, 0)` is `1/2`, which does not satisfy
`to_min ≤ result ∧ result ≤ to_max`: the result does not lie in the
ordered interval `[to_min, to_max] = [1, 0]`. -/
theorem mapRange_interval_counterexample :
    MapRange.call
        [Value.float 5, Value.float 0, Value.float 10, Value.float 1, Value.float 0]
        ExecutionContext.init
      = Except.ok
          { writes := [(0, Value.float (1/2))], ctxAfter := ExecutionContext.init } ∧
    ¬ ((1 : ℚ) ≤ 1/2 ∧ (1/2 : ℚ) ≤ 0) := by
  constructor
  · rw [MapRange.call_floats]
    norm_num [CLAMP]
  · norm_num

/-- C3 amended: for every input, the result written by `MapRange::call`
lies in the closed interval between `to_min` and `to_max` — that is,
`min to_min to_max ≤ result ≤ max to_min to_max` (which is
`[to_min, to_max]` whenever `to_min ≤ to_max`) — even when `value`
lies outside the source range. -/
theorem mapRange_result_between (v a b c d : ℚ) (ctx : ExecutionContext) :
    ∃ r : ℚ,
      MapRange.call
          [Value.float v, Value.float a, Value.float b, Value.float c, Value.float d] ctx
        = Except.ok { writes := [(0, Value.float r)], ctxAfter := ctx } ∧
      min c d ≤ r ∧ r ≤ max c d := by
  refine ⟨_, MapRange.call_floats v a b c d ctx, ?_, ?_⟩ <;>
    · rcases CLAMP_unit_bounds ((v - a) / (b - a)) with ⟨h0, h1⟩
      split_ifs
      all_goals
        rcases le_total c d with hcd | hcd <;>
          simp only [min_eq_left, min_eq_right, max_eq_left, max_eq_right, hcd] <;>
          nlinarith

/-- Evaluation of the four arithmetic bodies on a tuple of two floats:
each succeeds and performs exactly one output write, to slot 0. -/
theorem arith_call_floats (a b : ℚ) (ctx : ExecutionContext) :
    AddFloats.call [Value.float a, Value.float b] ctx
      = Except.ok { writes := [(0, Value.float (a + b))], ctxAfter := ctx } ∧
    MultiplyFloats.call [Value.float a, Value.float b] ctx
      = Except.ok { writes := [(0, Value.float (a * b))], ctxAfter := ctx } ∧
    MinFloats.call [Value.float a, Value.float b] ctx
      = Except.ok { writes := [(0, Value.float (if a < b then a else b))], ctxAfter := ctx } ∧
    MaxFloats.call [Value.float a, Value.float b] ctx
      = Except.ok { writes := [(0, Value.float (if a < b then b else a))], ctxAfter := ctx } :=
  ⟨rfl, rfl, rfl, rfl⟩

/-- C4: on float inputs `a`, `b`, the interpreted bodies compute
elementwise addition, multiplication, minimum and maximum, each writing
its single declared output slot (slot 0) exactly once — the write log is
the one-element list `[(0, result)]`; in particular `add(2,3) = 5`,
`multiply(2,3) = 6`, `min(2,3) = 2`, `max(2,3) = 3`. -/
theorem arithmetic_bodies_correct (a b : ℚ) (ctx : ExecutionContext) :
    (AddFloats.call [Value.float a, Value.float b] ctx
        = Except.ok { writes := [(0, Value.float (a + b))], ctxAfter := ctx } ∧
      MultiplyFloats.call [Value.float a, Value.float b] ctx
        = Except.ok { writes := [(0, Value.float (a * b))], ctxAfter := ctx } ∧
      MinFloats.call [Value.float a, Value.float b] ctx
        = Except.ok { writes := [(0, Value.float (min a b))], ctxAfter := ctx } ∧
      MaxFloats.call [Value.float a, Value.float b] ctx
        = Except.ok { writes := [(0, Value.float (max a b))], ctxAfter := ctx }) ∧
    (AddFloats.call [Value.float 2, Value.float 3] ExecutionContext.init
        = Except.ok { writes := [(0, Value.float 5)], ctxAfter := ExecutionContext.init } ∧
      MultiplyFloats.call [Value.float 2, Value.float 3] ExecutionContext.init
        = Except.ok { writes := [(0, Value.float 6)], ctxAfter := ExecutionContext.init } ∧
      MinFloats.call [Value.float 2, Value.float 3] ExecutionContext.init
        = Except.ok { writes := [(0, Value.float 2)], ctxAfter := ExecutionContext.init } ∧
      MaxFloats.call [Value.float 2, Value.float 3] ExecutionContext.init
        = Except.ok { writes := [(0, Value.float 3)], ctxAfter := ExecutionContext.init }) := by
  have hmin : (if a < b then a else b) = min a b := by
    split_ifs with h
    · exact (min_eq_left h.le).symm
    · exact (min_eq_right (not_lt.mp h)).symm
  have hmax : (if a < b then b else a) = max a b := by
    split_ifs with h
    · exact (max_eq_right h.le).symm
    · exact (max_eq_left (not_lt.mp h)).symm
  rcases arith_call_floats a b ctx with ⟨hadd, hmul, hminc, hmaxc⟩
  refine ⟨⟨hadd, hmul, ?_, ?_⟩, ?_, ?_, ?_, ?_⟩
  · rw [hminc, hmin]
  · rw [hmaxc, hmax]
  · rw [(arith_call_floats 2 3 ExecutionContext.init).1]
    norm_num
  · rw [(arith_call_floats 2 3 ExecutionContext.init).2.1]
    norm_num
  · rw [(arith_call_floats 2 3 ExecutionContext.init).2.2.1]
    norm_num
  · rw [(arith_call_floats 2 3 ExecutionContext.init).2.2.2]
    norm_num

/-- C5: the interpreted `AddFloats` body and the codegen `GenAddFloats`
body agree exactly on every pair of float inputs: the value the
interpreted body writes to its output slot is the single SSA value the
codegen body appends for that output slot (both are `a + b` exactly,
not merely within epsilon). -/
theorem add_interpreted_codegen_agree (a b : ℚ) (ctx : ExecutionContext) :
    ∃ r : ℚ,
      AddFloats.call [Value.float a, Value.float b] ctx
        = Except.ok { writes := [(0, Value.float r)], ctxAfter := ctx } ∧
      GenAddFloats.build_ir [a, b] [] = [r] :=
  ⟨a + b, rfl, rfl⟩

end FN

namespace bvm

/-- C6: the evaluator stack capacity `BVM_STACK_SIZE` is exactly 4095
numeric slots; an instruction whose stack access addresses a slot
`≥ 4095` makes the whole evaluation fail immediately with
`StackOverflow` (it is never clamped, truncated or wrapped to an
in-bounds slot), while every slot below 4095 is accessible. -/
theorem stack_bounds_fail_fast (stack : List ℚ) (i : ℕ) (v : ℚ)
    (rest : List StackOp) (h : BVM_STACK_SIZE ≤ i) :
    BVM_STACK_SIZE = 4095 ∧
    eval_expression stack (StackOp.load i :: rest)
      = Except.error FN.FnError.StackOverflow ∧
    eval_expression stack (StackOp.store i v :: rest)
      = Except.error FN.FnError.StackOverflow ∧
    (∀ j : ℕ, j < BVM_STACK_SIZE →
      step stack (StackOp.load j) = Except.ok stack) := by
  refine ⟨rfl, ?_, ?_, ?_⟩
  · simp [eval_expression, step, not_lt.mpr h, Except.bind, Except.instMonad]
  · simp [eval_expression, step, not_lt.mpr h, Except.bind, Except.instMonad]
  · intro j hj
    simp [step, hj]

/-- Witness for C6 at slot index 4095 (the first out-of-bounds slot). -/
theorem stack_bounds_fail_fast_witness :
    BVM_STACK_SIZE ≤ 4095 ∧
    (BVM_STACK_SIZE = 4095 ∧
     eval_expression [] [StackOp.load 4095]
       = Except.error FN.FnError.StackOverflow ∧
     eval_expression [] [StackOp.store 4095 0]
       = Except.error FN.FnError.StackOverflow ∧
     (∀ j : ℕ, j < BVM_STACK_SIZE →
       step [] (StackOp.load j) = Except.ok [])) :=
  ⟨by decide, stack_bounds_fail_fast [] 4095 0 [] (by decide)⟩

end bvm

namespace FN

/-- A second accessor call on the state left by a first call returns
the same Function and leaves the cache state unchanged. -/
theorem LazyState.access_twice (build : Function) (s : LazyState) :
    LazyState.access build (LazyState.access build s).2
      = ((LazyState.access build s).1, (LazyState.access build s).2) := by
  cases hc : s.cache <;> simp [LazyState.access, hc]

/-- C7: each built-in accessor is idempotent — from any cache state,
calling it twice returns the same Function and state as calling it
once; from a fresh state the returned Function is exactly the one the
source's initializer body builds (name, Signature and attached bodies
unchanged thereafter), and the initializer body has run exactly once
even after two calls. -/
theorem builtins_constructed_once (s : LazyState) :
    (add_floats (add_floats s).2 = ((add_floats s).1, (add_floats s).2) ∧
     multiply_floats (multiply_floats s).2
       = ((multiply_floats s).1, (multiply_floats s).2) ∧
     min_floats (min_floats s).2 = ((min_floats s).1, (min_floats s).2) ∧
     max_floats (max_floats s).2 = ((max_floats s).1, (max_floats s).2) ∧
     map_range (map_range s).2 = ((map_range s).1, (map_range s).2)) ∧
    ((add_floats LazyState.fresh).1 = add_floats_build ∧
     (multiply_floats LazyState.fresh).1 = multiply_floats_build ∧
     (min_floats LazyState.fresh).1 = min_floats_build ∧
     (max_floats LazyState.fresh).1 = max_floats_build ∧
     (map_range LazyState.fresh).1 = map_range_build) ∧
    ((add_floats (add_floats LazyState.fresh).2).2.constructions = 1 ∧
     (multiply_floats (multiply_floats LazyState.fresh).2).2.constructions = 1 ∧
     (min_floats (min_floats LazyState.fresh).2).2.constructions = 1 ∧
     (max_floats (max_floats LazyState.fresh).2).2.constructions = 1 ∧
     (map_range (map_range LazyState.fresh).2).2.constructions = 1) :=
  ⟨⟨LazyState.access_twice add_floats_build s,
    LazyState.access_twice multiply_floats_build s,
    LazyState.access_twice min_floats_build s,
    LazyState.access_twice max_floats_build s,
    LazyState.access_twice map_range_build s⟩,
   ⟨rfl, rfl, rfl, rfl, rfl⟩,
   ⟨rfl, rfl, rfl, rfl, rfl⟩⟩

set_option maxHeartbeats 2000000 in
/-- C8: every interpreted built-in body is a pure, deterministic
function of its input tuple: the write log it produces is the same for
any two execution contexts (the bodies never read the context), and a
successful call hands the context back unchanged (the bodies never
mutate it).  The bodies are modelled as functions of `(fn_in, ctx)`
alone because the source classes carry no member state at all, so no
state persists across calls. -/
theorem bodies_pure (b : TupleBody) (t : Tuple)
    (ctx₁ ctx₂ : ExecutionContext) :
    Except.map CallResult.writes (TupleBody.run b t ctx₁)
      = Except.map CallResult.writes (TupleBody.run b t ctx₂) ∧
    Except.map CallResult.ctxAfter (TupleBody.run b t ctx₁)
      = Except.map (fun _ => ctx₁) (TupleBody.run b t ctx₁) := by
  refine ⟨?_, ?_⟩ <;>
  · cases b
    case mapRange =>
      cases h0 : t.get_float 0 <;> cases h1 : t.get_float 1 <;>
        cases h2 : t.get_float 2 <;> cases h3 : t.get_float 3 <;>
        cases h4 : t.get_float 4 <;>
        simp [TupleBody.run, MapRange.call, h0, h1, h2, h3, h4, Except.map,
          Except.bind, Except.instMonad, Except.pure, pure]
    all_goals
      cases h0 : t.get_float 0 <;> cases h1 : t.get_float 1 <;>
        simp [TupleBody.run, AddFloats.call, MultiplyFloats.call, MinFloats.call,
          MaxFloats.call, h0, h1, Except.map, Except.bind, Except.instMonad,
          Except.pure, pure]

/-- C9: `Signature.construct` succeeds exactly when input parameter
names are pairwise distinct among inputs and output names among
outputs; any within-direction conflict yields `DuplicateParameter`;
reusing a name across directions is permitted — the Map Range signature
with input parameter "Value" and output parameter "Value" constructs
successfully. -/
theorem signature_construct_per_direction
    (ins : List InputParameter) (outs : List OutputParameter) :
    (Signature.construct ins outs = Except.ok { inputs := ins, outputs := outs }
      ↔ (ins.map InputParameter.name).Nodup ∧ (outs.map OutputParameter.name).Nodup) ∧
    ((¬ (ins.map InputParameter.name).Nodup ∨
        ¬ (outs.map OutputParameter.name).Nodup) →
      Signature.construct ins outs = Except.error FnError.DuplicateParameter) ∧
    Signature.construct map_range_build.sig.inputs map_range_build.sig.outputs
      = Except.ok map_range_build.sig := by
  refine ⟨?_, ?_, ?_⟩
  · unfold Signature.construct
    split_ifs with h1 h2 <;> simp_all
  · intro hdup
    unfold Signature.construct
    split_ifs with h1 h2 <;> first | rfl | tauto
  · rfl

/-- Witness for C9: a signature with two inputs both named "A" is
rejected with `DuplicateParameter`. -/
theorem signature_construct_witness :
    (¬ (([⟨"A", TypeDesc.floatTy⟩, ⟨"A", TypeDesc.floatTy⟩] :
          List InputParameter).map InputParameter.name).Nodup ∨
      ¬ (([] : List OutputParameter).map OutputParameter.name).Nodup) ∧
    Signature.construct [⟨"A", TypeDesc.floatTy⟩, ⟨"A", TypeDesc.floatTy⟩] []
      = Except.error FnError.DuplicateParameter :=
  ⟨Or.inl (by simp),
   (signature_construct_per_direction
      [⟨"A", TypeDesc.floatTy⟩, ⟨"A", TypeDesc.floatTy⟩] []).2.1
     (Or.inl (by simp))⟩

/-- C10: the Add Floats built-in carries only the codegen
`GenAddFloats` body (its interpreted `AddFloats` attachment is
commented out in the source), while multiply, min, max and map_range
carry only interpreted bodies; evaluating Add Floats under the
interpreted strategy, or any of the others under the codegen strategy,
fails with `UnresolvedBody` for every input. -/
theorem body_attachment (t : Tuple) (ctx : ExecutionContext)
    (inputs : LLVMValues) :
    (add_floats_build.tupleCallBody = none ∧
      add_floats_build.llvmBody = some LLVMBody.genAddFloats) ∧
    (multiply_floats_build.tupleCallBody = some TupleBody.multiplyFloats ∧
      multiply_floats_build.llvmBody = none) ∧
    (min_floats_build.tupleCallBody = some TupleBody.minFloats ∧
      min_floats_build.llvmBody = none) ∧
    (max_floats_build.tupleCallBody = some TupleBody.maxFloats ∧
      max_floats_build.llvmBody = none) ∧
    (map_range_build.tupleCallBody = some TupleBody.mapRange ∧
      map_range_build.llvmBody = none) ∧
    Function.eval_interpreted add_floats_build t ctx
      = Except.error FnError.UnresolvedBody ∧
    Function.eval_codegen multiply_floats_build inputs
      = Except.error FnError.UnresolvedBody ∧
    Function.eval_codegen min_floats_build inputs
      = Except.error FnError.UnresolvedBody ∧
    Function.eval_codegen max_floats_build inputs
      = Except.error FnError.UnresolvedBody ∧
    Function.eval_codegen map_range_build inputs
      = Except.error FnError.UnresolvedBody :=
  ⟨⟨rfl, rfl⟩, ⟨rfl, rfl⟩, ⟨rfl, rfl⟩, ⟨rfl, rfl⟩, ⟨rfl, rfl⟩,
   rfl, rfl, rfl, rfl, rfl⟩

end FN
